import Mathlib

/-!
Shallow embedding of the AllenBreak fingerprint time-clock core:
FingerprintService and FirebaseService from
src/scripts/backend/fingerprint-service.js, and FingerprintController from
src/unnamed/part_000.  Template byte payloads are modelled as lists of
naturals (the bytes obtained from base64ToArrayBuffer); JavaScript float
arithmetic on the similarity score is modelled over the rationals, with
Option none standing for NaN (which arises from the division 0/0 when the
shorter payload is empty).  Asynchronous store calls are modelled by passing
the call's outcome (Except for a throwing call) as an argument, and the
Firestore collections are modelled as lists in store-returned order.
-/

namespace AllenBreak

/-- Template object built by captureFingerprint (fingerprint-service.js lines
87-91): format is metadata, raw is the comparison payload.  The source keeps
raw as a base64 string and compares raw strings with ===, decoding with
base64ToArrayBuffer before the byte loop; here raw is the decoded byte list
and the fast-path equality is byte-list equality, which produces the same
MatchResult on every input (two distinct encodings of the same bytes fall
into the byte loop, where every position agrees, giving the same verdict
matched = true, score = 100). -/
structure Template where
  format : String
  raw : List ℕ
deriving DecidableEq

/-- Result of compareFingerprints (fingerprint-service.js lines 146-174).
score is Option ℚ: none models the IEEE NaN that the source's float
division produces for 0/0. -/
structure MatchResult where
  matched : Bool
  score : Option ℚ
deriving DecidableEq

/-- Byte loop of compareFingerprints (lines 163-168): walks both byte lists
in lockstep up to the shorter length and counts positions whose absolute
difference is at most 5. -/
def countMatchingBytes : List ℕ → List ℕ → ℕ
  | x :: xs, y :: ys =>
      (if ((x : ℤ) - (y : ℤ)).natAbs ≤ 5 then 1 else 0) + countMatchingBytes xs ys
  | _, _ => 0

/-- JavaScript float division of the two counts at line 170: when the
denominator is 0 the numerator is also 0 (the loop body never ran) and the
result is NaN, modelled as none. -/
def jsDivCounts (m n : ℕ) : Option ℚ :=
  if n = 0 then none else some ((m : ℚ) / (n : ℚ))

/-- JavaScript comparison score > threshold at line 172: any comparison with
NaN is false. -/
def jsGtNum (x : Option ℚ) (threshold : ℚ) : Bool :=
  match x with
  | none => false
  | some v => decide (threshold < v)

/-- FingerprintService.compareFingerprints (fingerprint-service.js lines
144-175).  Null or missing arguments are the none case of Option Template
(the source's falsy check at line 146); byte-for-byte equal raw payloads
short-circuit to matched with score 100; otherwise the byte loop runs over
the common prefix length and the score is the agreeing fraction times 100. -/
def compareFingerprints (template1 template2 : Option Template) : MatchResult :=
  match template1, template2 with
  | some t1, some t2 =>
      if t1.raw = t2.raw then
        { matched := true, score := some 100 }
      else
        let minLength := min t1.raw.length t2.raw.length
        let matchingBytes := countMatchingBytes t1.raw t2.raw
        let score := (jsDivCounts matchingBytes minLength).map (fun q => q * 100)
        { matched := jsGtNum score 70, score := score }
  | _, _ => { matched := false, score := some 0 }

/-- Digital subobject stored on a funcionario document (fingerprint-service.js
lines 216-220): formato and the raw payload dados (dataCadastro, a server
timestamp, carries no decision logic and is omitted). -/
structure Digital where
  formato : String
  dados : List ℕ
deriving DecidableEq

/-- Funcionario document of the funcionarios collection.  digital is Option
because verificarDigitalComTodos (part_000 line 215) guards against documents
without a digital field. -/
structure Funcionario where
  id : ℕ
  nome : String
  cargo : String
  departamento : String
  email : String
  digital : Option Digital
  ativo : Bool
deriving DecidableEq

/-- Firestore funcionarios collection, as a list in store-returned order. -/
abbrev Banco := List Funcionario

/-- Profile fields passed to cadastrarFuncionario (fingerprint-service.js
lines 211-215). -/
structure DadosFuncionario where
  nome : String
  cargo : String
  departamento : String
  email : String
deriving DecidableEq

/-- Error thrown by FirebaseService.cadastrarFuncionario at line 207 when an
active funcionario with the same digital payload already exists. -/
inductive CadastroErro
  | duplicateTemplate
deriving DecidableEq

/-- FirebaseService.buscarFuncionarioPorDigitalExata (fingerprint-service.js
lines 238-259): the Firestore query digital.dados == raw AND ativo == true
with limit 1, modelled as the first matching document in store order. -/
def buscarFuncionarioPorDigitalExata (db : Banco) (digitalRaw : List ℕ) :
    Option Funcionario :=
  db.find? (fun f => decide (f.digital.map Digital.dados = some digitalRaw) && f.ativo)

/-- Document written by the add call at lines 211-223: the profile fields,
the digital subobject with the template's payload, and ativo true.  The
Firestore auto-generated id is modelled as the collection size. -/
def novoFuncionario (db : Banco) (funcionario : DadosFuncionario)
    (digitalTemplate : Template) : Funcionario :=
  { id := db.length
    nome := funcionario.nome
    cargo := funcionario.cargo
    departamento := funcionario.departamento
    email := funcionario.email
    digital := some { formato := digitalTemplate.format, dados := digitalTemplate.raw }
    ativo := true }

/-- FirebaseService.cadastrarFuncionario (fingerprint-service.js lines
202-231): looks up an active funcionario with the exact digital payload; if
one exists it throws before any write, otherwise it adds the new active
document.  The result carries the store after the call, unchanged on the
throwing path. -/
def cadastrarFuncionario (db : Banco) (funcionario : DadosFuncionario)
    (digitalTemplate : Template) : Except CadastroErro ℕ × Banco :=
  match buscarFuncionarioPorDigitalExata db digitalTemplate.raw with
  | some _ => (.error .duplicateTemplate, db)
  | none =>
      ((.ok (novoFuncionario db funcionario digitalTemplate).id),
        db ++ [novoFuncionario db funcionario digitalTemplate])

/-- FirebaseService.buscarTodosFuncionariosAtivos (fingerprint-service.js
lines 265-279): the query ativo == true, preserving store order. -/
def buscarTodosFuncionariosAtivos (db : Banco) : List Funcionario :=
  db.filter (fun f => f.ativo)

/-- Attendance record type: the strings "entrada" and "saída" written by
registrarPonto. -/
inductive TipoRegistro
  | entrada
  | saida
deriving DecidableEq

/-- Failure of a Firestore round-trip (the spec's StoreUnavailable). -/
inductive ErroStore
  | storeUnavailable
deriving DecidableEq

/-- FirebaseService.determinarTipoRegistro (fingerprint-service.js lines
321-345).  The argument is the outcome of the last-record-today query
(lines 327-332): an error if the query threw, otherwise the most recent
record's tipo for the employee today, if any.  The catch block at lines
340-344 swallows the error and returns "entrada". -/
def determinarTipoRegistro (lookup : Except ErroStore (Option TipoRegistro)) :
    TipoRegistro :=
  match lookup with
  | .ok none => .entrada
  | .ok (some ultimoTipo) => if ultimoTipo = .entrada then .saida else .entrada
  | .error _ => .entrada

/-- FirebaseService.registrarPonto (fingerprint-service.js lines 287-314)
for a fixed employee and a fixed local day: registros is the day's records
in chronological order; lookup is the outcome of determinarTipoRegistro's
last-record query.  The decided tipo is appended to the registros
collection and returned. -/
def registrarPonto (lookup : Except ErroStore (Option TipoRegistro))
    (registros : List TipoRegistro) : TipoRegistro × List TipoRegistro :=
  let tipoRegistro := determinarTipoRegistro lookup
  (tipoRegistro, registros ++ [tipoRegistro])

/-- registrarPonto when the last-record query succeeds and reads the store
consistently: the most recent record of the chronological list is its last
element. -/
def registrarPontoOk (registros : List TipoRegistro) :
    TipoRegistro × List TipoRegistro :=
  registrarPonto (.ok registros.getLast?) registros

/-- State of the globally shared capture-completion callback
window.sampleAcquired (fingerprint-service.js lines 79-120): 0 stands for
the original global handler, k > 0 for the closure installed by capture
call k. -/
structure WindowState where
  sampleAcquired : ℕ
deriving DecidableEq

/-- Outcome of starting a capture: started carries the saved
originalSampleAcquired handler; sessionBusy is the failure the spec
prescribes for a second in-flight capture. -/
inductive CaptureStart
  | started (originalSampleAcquired : ℕ)
  | sessionBusy
deriving DecidableEq

/-- Synchronous prologue of FingerprintService.captureFingerprint
(fingerprint-service.js lines 67-127): it saves window.sampleAcquired into
originalSampleAcquired (line 79), installs this call's closure (line 81)
and starts the capture (line 115).  The source performs no in-flight check
of any kind, so the sessionBusy outcome is never produced. -/
def captureFingerprintStart (callId : ℕ) (w : WindowState) :
    CaptureStart × WindowState :=
  let originalSampleAcquired := w.sampleAcquired
  (.started originalSampleAcquired, { sampleAcquired := callId })

/-- Enrollment failure kinds surfaced by FingerprintController's
success:false results (part_000 lines 107-113 and 133-139). -/
inductive ErroCadastroController
  | confirmationMismatch
  | duplicateTemplate
deriving DecidableEq

/-- Result object of FingerprintController.cadastrarFuncionario. -/
structure ResultadoCadastro where
  success : Bool
  erro : Option ErroCadastroController
  funcionarioId : Option ℕ
deriving DecidableEq

/-- FingerprintController.cadastrarFuncionario (part_000 lines 85-140),
given the two already-captured templates (capture failures are handled by
the outer catch and are not in scope here): compares the two captures, on
mismatch returns success false without touching the store, otherwise calls
FirebaseService.cadastrarFuncionario, translating its duplicate throw into
a success false result via the outer catch. -/
def controllerCadastrarFuncionario (db : Banco) (dadosFuncionario : DadosFuncionario)
    (digitalTemplate confirmacaoTemplate : Template) : ResultadoCadastro × Banco :=
  let verificacao := compareFingerprints (some digitalTemplate) (some confirmacaoTemplate)
  if verificacao.matched = false then
    ({ success := false, erro := some .confirmationMismatch, funcionarioId := none }, db)
  else
    match cadastrarFuncionario db dadosFuncionario digitalTemplate with
    | (.error _, db2) =>
        ({ success := false, erro := some .duplicateTemplate, funcionarioId := none }, db2)
    | (.ok fid, db2) =>
        ({ success := true, erro := none, funcionarioId := some fid }, db2)

/-- FingerprintController.verificarDigitalComTodos (part_000 lines 200-251):
walks the funcionarios in the given order; an entry whose digital field or
digital.dados payload is falsy (missing digital, or the empty payload, the
empty string being falsy in the source) is skipped without comparison; the
first funcionario whose comparison is matched wins.  The second component
counts the compareFingerprints calls performed. -/
def verificarDigitalComTodos (digitalTemplate : Template) :
    List Funcionario → Option Funcionario × ℕ
  | [] => (none, 0)
  | funcionario :: rest =>
      match funcionario.digital with
      | none => verificarDigitalComTodos digitalTemplate rest
      | some d =>
          if d.dados = [] then verificarDigitalComTodos digitalTemplate rest
          else
            let verificacao := compareFingerprints (some digitalTemplate)
              (some { format := d.formato, raw := d.dados })
            if verificacao.matched then (some funcionario, 1)
            else
              let r := verificarDigitalComTodos digitalTemplate rest
              (r.1, r.2 + 1)

/-- Identification outcome of FingerprintController.autenticarFuncionario:
the funcionario resolved (none when not recognised) and, as an observation
of the control flow, the number of fuzzy compareFingerprints calls made. -/
structure ResultadoAutenticacao where
  funcionario : Option Funcionario
  fuzzyComparisons : ℕ
deriving DecidableEq

/-- Identification phase of FingerprintController.autenticarFuncionario
(part_000 lines 146-193), given the captured template: the exact
byte-equality lookup runs first (line 154); only when it misses does the
fuzzy scan over all active funcionarios run (lines 156-169).  The
subsequent registrarPonto call is modelled separately by registrarPonto. -/
def autenticarFuncionario (db : Banco) (digitalTemplate : Template) :
    ResultadoAutenticacao :=
  match buscarFuncionarioPorDigitalExata db digitalTemplate.raw with
  | some funcionario => { funcionario := some funcionario, fuzzyComparisons := 0 }
  | none =>
      let ativos := buscarTodosFuncionariosAtivos db
      let resultado := verificarDigitalComTodos digitalTemplate ativos
      { funcionario := resultado.1, fuzzyComparisons := resultado.2 }

/-- Spec-side predicate for the fuzzy scan: funcionario f is accepted for
the captured template when f has a stored digital and the matcher's verdict
on it is matched. -/
def fuzzyMatches (digitalTemplate : Template) (f : Funcionario) : Bool :=
  match f.digital with
  | none => false
  | some d =>
      (compareFingerprints (some digitalTemplate)
        (some { format := d.formato, raw := d.dados })).matched

/-- Invariant I1: no two distinct active funcionarios carry the same stored
digital payload. -/
def NoDupActiveRaw (db : Banco) : Prop :=
  db.Pairwise (fun f g => f.ativo = true → g.ativo = true →
    ∀ d, f.digital.map Digital.dados = some d → g.digital.map Digital.dados ≠ some d)

/-- Concrete template used to instantiate the universally quantified
theorems below. -/
def templateExemplo : Template :=
  { format := "PNG", raw := [1, 2, 3] }

/-- Concrete funcionario document used to instantiate the universally
quantified theorems below. -/
def funcionarioExemplo : Funcionario :=
  { id := 0
    nome := "Ana"
    cargo := "Dev"
    departamento := "TI"
    email := "ana"
    digital := some { formato := "PNG", dados := [1, 2, 3] }
    ativo := true }

theorem countMatchingBytes_comm : ∀ xs ys : List ℕ,
    countMatchingBytes xs ys = countMatchingBytes ys xs
  | [], [] => rfl
  | [], _ :: _ => rfl
  | _ :: _, [] => rfl
  | x :: xs, y :: ys => by
      have h : ((x : ℤ) - (y : ℤ)).natAbs = ((y : ℤ) - (x : ℤ)).natAbs := by omega
      simp only [countMatchingBytes, h, countMatchingBytes_comm xs ys]

theorem countMatchingBytes_le_min : ∀ xs ys : List ℕ,
    countMatchingBytes xs ys ≤ min xs.length ys.length
  | [], _ => by simp [countMatchingBytes]
  | _ :: _, [] => by simp [countMatchingBytes]
  | x :: xs, y :: ys => by
      have ih := countMatchingBytes_le_min xs ys
      simp only [countMatchingBytes, List.length_cons]
      split <;> omega

theorem countMatchingBytes_self : ∀ xs : List ℕ,
    countMatchingBytes xs xs = xs.length
  | [] => rfl
  | x :: xs => by
      simp [countMatchingBytes, countMatchingBytes_self xs, Nat.add_comm]

/-- C9: compareFingerprints is commutative in its score: for all inputs a
and b, compare(a, b).score equals compare(b, a).score (the per-position
predicate and the truncation length are both symmetric, and every other
branch is symmetric as well). -/
theorem compareFingerprints_score_comm (t1 t2 : Option Template) :
    (compareFingerprints t1 t2).score = (compareFingerprints t2 t1).score := by
  match t1, t2 with
  | none, none => rfl
  | none, some b => rfl
  | some a, none => rfl
  | some a, some b =>
      by_cases h : a.raw = b.raw
      · simp [compareFingerprints, h]
      · have h2 : ¬ b.raw = a.raw := fun hh => h hh.symm
        simp [compareFingerprints, h, h2, Nat.min_comm, countMatchingBytes_comm a.raw b.raw]

/-- C10: compareFingerprints is total at the public interface even for
absent inputs: when either argument is null or missing (the none case), it
returns matched false with score 0 rather than failing. -/
theorem compareFingerprints_total_null (t : Option Template) :
    compareFingerprints none t = { matched := false, score := some 0 } ∧
      compareFingerprints t none = { matched := false, score := some 0 } := by
  cases t <;> exact ⟨rfl, rfl⟩

/-- C2 counterexample: with raw payloads [] and [0] (unequal, minimum
length 0), the source computes matchingBytes / minLength = 0 / 0, which is
NaN, so the result is not the claimed matched false with score 0. -/
theorem compareFingerprints_emptyMin_counterexample :
    compareFingerprints (some { format := "PNG", raw := [] })
        (some { format := "PNG", raw := [0] }) ≠
      { matched := false, score := some 0 } := by
  decide

/-- C2 amended: for unequal raw payloads with minimum length 0, compare
returns matched false with score NaN (modelled as none), not score 0; the
score lies in the interval 0 to 100 in every case in which it is an actual
number. -/
theorem compareFingerprints_emptyMin_amended :
    (∀ a b : Template, a.raw ≠ b.raw → min a.raw.length b.raw.length = 0 →
      compareFingerprints (some a) (some b) = { matched := false, score := none }) ∧
    (∀ t1 t2 : Option Template, ∀ s : ℚ,
      (compareFingerprints t1 t2).score = some s → 0 ≤ s ∧ s ≤ 100) := by
  constructor
  · intro a b hne hmin
    simp [compareFingerprints, hne, hmin, jsDivCounts, jsGtNum]
  · intro t1 t2 s hs
    match t1, t2 with
    | none, none =>
        simp only [compareFingerprints, Option.some.injEq] at hs
        subst hs
        norm_num
    | none, some b =>
        simp only [compareFingerprints, Option.some.injEq] at hs
        subst hs
        norm_num
    | some a, none =>
        simp only [compareFingerprints, Option.some.injEq] at hs
        subst hs
        norm_num
    | some a, some b =>
        by_cases h : a.raw = b.raw
        · simp only [compareFingerprints, if_pos h, Option.some.injEq] at hs
          subst hs
          norm_num
        · rcases Nat.eq_zero_or_pos (min a.raw.length b.raw.length) with hmin | hmin
          · simp [compareFingerprints, h, hmin, jsDivCounts] at hs
          · have hm : countMatchingBytes a.raw b.raw ≤ min a.raw.length b.raw.length :=
              countMatchingBytes_le_min _ _
            have hne0 : min a.raw.length b.raw.length ≠ 0 := Nat.pos_iff_ne_zero.mp hmin
            have hcast : (countMatchingBytes a.raw b.raw : ℚ) ≤
                ((min a.raw.length b.raw.length : ℕ) : ℚ) := Nat.cast_le.mpr hm
            have hpos : (0 : ℚ) < ((min a.raw.length b.raw.length : ℕ) : ℚ) := by
              exact_mod_cast hmin
            have hdiv0 : (0 : ℚ) ≤ (countMatchingBytes a.raw b.raw : ℚ) /
                ((min a.raw.length b.raw.length : ℕ) : ℚ) := by positivity
            have hdiv1 : (countMatchingBytes a.raw b.raw : ℚ) /
                ((min a.raw.length b.raw.length : ℕ) : ℚ) ≤ 1 :=
              (div_le_one hpos).mpr hcast
            simp only [compareFingerprints, if_neg h, jsDivCounts, if_neg hne0,
              Option.map, Option.bind, Option.some.injEq] at hs
            subst hs
            constructor
            · nlinarith
            · nlinarith

/-- C8: the matcher's verdict uses the strict threshold, matched exactly
when score is greater than 70; in particular, for payloads of equal nonzero
length where exactly 70 percent of the positions agree within tolerance 5
(and hence 30 percent differ by more than 5), the score is exactly 70 and
matched is false. -/
theorem compareFingerprints_threshold :
    (∀ t1 t2 : Option Template, (compareFingerprints t1 t2).matched = true ↔
      ∃ s : ℚ, (compareFingerprints t1 t2).score = some s ∧ 70 < s) ∧
    (∀ a b : Template, a.raw.length = b.raw.length → 0 < a.raw.length →
      10 * countMatchingBytes a.raw b.raw = 7 * a.raw.length →
      compareFingerprints (some a) (some b) = { matched := false, score := some 70 }) := by
  constructor
  · intro t1 t2
    match t1, t2 with
    | none, none => simp [compareFingerprints]
    | none, some b => simp [compareFingerprints]
    | some a, none => simp [compareFingerprints]
    | some a, some b =>
        by_cases h : a.raw = b.raw
        · simp [compareFingerprints, h]
          norm_num
        · rcases Nat.eq_zero_or_pos (min a.raw.length b.raw.length) with hmin | hmin
          · simp [compareFingerprints, h, hmin, jsDivCounts, jsGtNum]
          · have hne0 : min a.raw.length b.raw.length ≠ 0 := Nat.pos_iff_ne_zero.mp hmin
            simp [compareFingerprints, h, jsDivCounts, hne0, jsGtNum]
  · intro a b hlen hpos h10
    have hne : a.raw ≠ b.raw := by
      intro heq
      rw [heq, countMatchingBytes_self] at h10
      rw [heq] at hpos
      omega
    have hminersatz : min a.raw.length b.raw.length = a.raw.length := by
      rw [hlen, Nat.min_self]
    have hLne : a.raw.length ≠ 0 := Nat.pos_iff_ne_zero.mp hpos
    have hLq : (a.raw.length : ℚ) ≠ 0 := Nat.cast_ne_zero.mpr hLne
    have hscore : (countMatchingBytes a.raw b.raw : ℚ) / (a.raw.length : ℚ) * 100 = 70 := by
      have hcast : (10 : ℚ) * (countMatchingBytes a.raw b.raw : ℚ) =
          7 * (a.raw.length : ℚ) := by exact_mod_cast h10
      field_simp
      linarith
    simp only [compareFingerprints, if_neg hne, hminersatz, jsDivCounts, if_neg hLne,
      Option.map_some']
    rw [hscore]
    norm_num [jsGtNum]

/-- Witness for the amended C2 theorem: both parts instantiated at concrete
inputs, with every hypothesis discharged by evaluation. -/
theorem compareFingerprints_emptyMin_amended_witness :
    compareFingerprints (some { format := "PNG", raw := [] })
        (some { format := "PNG", raw := [0] }) = { matched := false, score := none } ∧
      ((0 : ℚ) ≤ 100 ∧ (100 : ℚ) ≤ 100) :=
  ⟨compareFingerprints_emptyMin_amended.1
      { format := "PNG", raw := [] } { format := "PNG", raw := [0] }
      (by decide) (by decide),
    compareFingerprints_emptyMin_amended.2 (some templateExemplo) (some templateExemplo) 100
      (by decide)⟩

/-- Witness for the C8 theorem at a concrete boundary input: ten positions,
exactly seven agreeing within tolerance 5, three differing by 100. -/
theorem compareFingerprints_threshold_witness :
    compareFingerprints
        (some { format := "PNG", raw := [0, 0, 0, 0, 0, 0, 0, 0, 0, 0] })
        (some { format := "PNG", raw := [0, 0, 0, 0, 0, 0, 0, 100, 100, 100] }) =
      { matched := false, score := some 70 } :=
  compareFingerprints_threshold.2
    { format := "PNG", raw := [0, 0, 0, 0, 0, 0, 0, 0, 0, 0] }
    { format := "PNG", raw := [0, 0, 0, 0, 0, 0, 0, 100, 100, 100] }
    (by decide) (by decide) (by decide)

/-- C1 counterexample: with the last-record lookup failing (the spec's
StoreUnavailable), the failure is not fatal to the event: the catch block
fabricates tipo entrada and registrarPonto persists a record with it, so
the claimed propagation does not happen. -/
theorem registrarPonto_storeError_counterexample :
    registrarPonto (.error .storeUnavailable) [] = (.entrada, [.entrada]) ∧
      determinarTipoRegistro (.error .storeUnavailable) = .entrada :=
  ⟨rfl, rfl⟩

/-- C1 amended: on a store failure during the last-record lookup,
determinarTipoRegistro unconditionally swallows the error and returns
entrada (there is no configuration flag), and registrarPonto persists a
record with that fabricated type; no failure propagates. -/
theorem registrarPonto_storeError_amended :
    ∀ (e : ErroStore) (registros : List TipoRegistro),
      determinarTipoRegistro (.error e) = .entrada ∧
        registrarPonto (.error e) registros = (.entrada, registros ++ [.entrada]) := by
  intro e registros
  cases e
  exact ⟨rfl, rfl⟩

/-- C3 counterexample: starting capture call 1 from the initial state
installs handler 1; a second call while the first is pending does not fail
with sessionBusy: it starts as well and overwrites the pending call's
completion handler with its own (handler 2). -/
theorem captureFingerprintStart_counterexample :
    (captureFingerprintStart 1 { sampleAcquired := 0 }).2.sampleAcquired = 1 ∧
      (captureFingerprintStart 2 (captureFingerprintStart 1 { sampleAcquired := 0 }).2).1 ≠
        CaptureStart.sessionBusy ∧
      (captureFingerprintStart 2
          (captureFingerprintStart 1 { sampleAcquired := 0 }).2).2.sampleAcquired = 2 := by
  decide

/-- C3 amended: captureFingerprint performs no in-flight check: every call
returns started (never sessionBusy), saving the currently installed
completion handler and replacing it with its own, so a call made while a
capture is pending overrides the pending capture's completion callback. -/
theorem captureFingerprintStart_amended :
    ∀ (callId : ℕ) (w : WindowState),
      (captureFingerprintStart callId w).1 = .started w.sampleAcquired ∧
        (captureFingerprintStart callId w).1 ≠ .sessionBusy ∧
        (captureFingerprintStart callId w).2.sampleAcquired = callId := by
  intro callId w
  refine ⟨rfl, ?_, rfl⟩
  simp [captureFingerprintStart]

/-- C4: for a fixed employee and a fixed local day, the record type
strictly alternates starting with entrada: with no record today the new
type is entrada; otherwise the new type is saida exactly when the most
recent type is entrada (and entrada otherwise), hence the new type always
differs from the most recent one. -/
theorem registrarPonto_alternation :
    ((registrarPontoOk []).1 = .entrada) ∧
      (∀ (registros : List TipoRegistro) (ultimo : TipoRegistro),
        registros.getLast? = some ultimo →
          (((registrarPontoOk registros).1 = .saida ↔ ultimo = .entrada) ∧
            (registrarPontoOk registros).1 ≠ ultimo)) := by
  constructor
  · rfl
  · intro registros ultimo h
    cases ultimo <;>
      simp [registrarPontoOk, registrarPonto, determinarTipoRegistro, h]

/-- Witness for the C4 theorem: a day with one entrada record toggles to
saida. -/
theorem registrarPonto_alternation_witness :
    ((registrarPontoOk [TipoRegistro.entrada]).1 = .saida ↔
        TipoRegistro.entrada = .entrada) ∧
      (registrarPontoOk [TipoRegistro.entrada]).1 ≠ TipoRegistro.entrada :=
  registrarPonto_alternation.2 [TipoRegistro.entrada] TipoRegistro.entrada (by decide)

/-- C6: when the two enrollment captures do not match under the matcher,
the controller fails with the confirmation mismatch error, returns a
success false result, and performs no store write (the funcionarios
collection comes back unchanged). -/
theorem controllerCadastrar_confirmationMismatch :
    ∀ (db : Banco) (dados : DadosFuncionario) (t1 t2 : Template),
      (compareFingerprints (some t1) (some t2)).matched = false →
      controllerCadastrarFuncionario db dados t1 t2 =
        ({ success := false, erro := some .confirmationMismatch,
           funcionarioId := none }, db) := by
  intro db dados t1 t2 h
  simp [controllerCadastrarFuncionario, h]

/-- Witness for the C6 theorem: two one-byte captures differing by 100 do
not match, and enrollment on the empty store writes nothing. -/
theorem controllerCadastrar_confirmationMismatch_witness :
    controllerCadastrarFuncionario []
        { nome := "Ana", cargo := "Dev", departamento := "TI", email := "ana" }
        { format := "PNG", raw := [0] } { format := "PNG", raw := [100] } =
      ({ success := false, erro := some .confirmationMismatch,
         funcionarioId := none }, []) :=
  controllerCadastrar_confirmationMismatch [] _ _ _ (by
    simp [compareFingerprints, jsDivCounts, jsGtNum, countMatchingBytes])

/-- C5: starting from a store holding no active funcionario with the given
payload, a first enrollment succeeds; a second enrollment of a different
profile with the byte-identical payload fails with the duplicate error and
leaves the store unchanged (no second funcionario persisted), and the
uniqueness invariant I1 is preserved by the pair of calls. -/
theorem cadastrarFuncionario_uniqueness :
    ∀ (db : Banco) (p1 p2 : DadosFuncionario) (t : Template),
      buscarFuncionarioPorDigitalExata db t.raw = none →
      NoDupActiveRaw db →
      ∃ (fid : ℕ) (db2 : Banco),
        cadastrarFuncionario db p1 t = (.ok fid, db2) ∧
        cadastrarFuncionario db2 p2 t = (.error .duplicateTemplate, db2) ∧
        NoDupActiveRaw db2 := by
  intro db p1 p2 t hnone hinv
  refine ⟨(novoFuncionario db p1 t).id, db ++ [novoFuncionario db p1 t], ?_, ?_, ?_⟩
  · simp [cadastrarFuncionario, hnone]
  · have hfound : buscarFuncionarioPorDigitalExata (db ++ [novoFuncionario db p1 t]) t.raw =
        some (novoFuncionario db p1 t) := by
      unfold buscarFuncionarioPorDigitalExata at hnone ⊢
      rw [List.find?_append, hnone, Option.none_or]
      simp [novoFuncionario]
    simp [cadastrarFuncionario, hfound]
  · unfold NoDupActiveRaw at hinv ⊢
    rw [List.pairwise_append]
    refine ⟨hinv, List.pairwise_singleton _ _, ?_⟩
    intro f hf g hg
    have hg2 : g = novoFuncionario db p1 t := by simpa using hg
    subst hg2
    intro hfat _ d hfd hcontra
    have hdd : d = t.raw := by
      have : (novoFuncionario db p1 t).digital.map Digital.dados = some t.raw := by
        simp [novoFuncionario]
      rw [this] at hcontra
      exact (Option.some.inj hcontra).symm
    subst hdd
    have hne := List.find?_eq_none.mp hnone f hf
    apply hne
    simp [hfd, hfat]

/-- Witness for the C5 theorem: enrolling Ana and then Bia with the same
payload on an initially empty store. -/
theorem cadastrarFuncionario_uniqueness_witness :
    ∃ (fid : ℕ) (db2 : Banco),
      cadastrarFuncionario []
          { nome := "Ana", cargo := "Dev", departamento := "TI", email := "ana" }
          templateExemplo = (.ok fid, db2) ∧
        cadastrarFuncionario db2
          { nome := "Bia", cargo := "RH", departamento := "RH", email := "bia" }
          templateExemplo = (.error .duplicateTemplate, db2) ∧
        NoDupActiveRaw db2 :=
  cadastrarFuncionario_uniqueness [] _ _ templateExemplo rfl List.Pairwise.nil

theorem verificarDigitalComTodos_eq_find (t : Template) :
    ∀ l : List Funcionario,
      (∀ f ∈ l, f.digital.map Digital.dados ≠ some t.raw) →
      (verificarDigitalComTodos t l).1 = l.find? (fuzzyMatches t)
  | [], _ => rfl
  | funcionario :: rest, h => by
      have hrest : ∀ f ∈ rest, f.digital.map Digital.dados ≠ some t.raw :=
        fun f hf => h f (List.mem_cons_of_mem _ hf)
      have ih := verificarDigitalComTodos_eq_find t rest hrest
      have hhead := h funcionario (List.mem_cons_self _ _)
      match hdig : funcionario.digital with
      | none =>
          simp [verificarDigitalComTodos, hdig, fuzzyMatches, ih]
      | some d =>
          by_cases hdados : d.dados = []
          · have htraw : t.raw ≠ [] := by
              intro hh
              apply hhead
              rw [hdig]
              simp [hdados, hh]
            have hm : (compareFingerprints (some t)
                (some { format := d.formato, raw := d.dados })).matched = false := by
              rw [hdados]
              simp [compareFingerprints, htraw, jsDivCounts, jsGtNum]
            have hfm : fuzzyMatches t funcionario = false := by
              simp [fuzzyMatches, hdig, hm]
            simp [verificarDigitalComTodos, hdig, hdados, hfm, ih]
          · cases hmatch : (compareFingerprints (some t)
                (some { format := d.formato, raw := d.dados })).matched
            · have hfm : fuzzyMatches t funcionario = false := by
                simp [fuzzyMatches, hdig, hmatch]
              simp [verificarDigitalComTodos, hdig, hdados, hmatch, hfm, ih]
            · have hfm : fuzzyMatches t funcionario = true := by
                simp [fuzzyMatches, hdig, hmatch]
              simp [verificarDigitalComTodos, hdig, hdados, hmatch, hfm]

/-- C7: identification runs the exact byte-equality lookup first, and when
it succeeds it performs no fuzzy comparison at all; only on an exact miss
does it scan the active funcionarios in store-returned order, resolving to
the first one whose comparison is matched (first match wins, not best
score). -/
theorem autenticarFuncionario_search :
    (∀ (db : Banco) (t : Template) (f : Funcionario),
      buscarFuncionarioPorDigitalExata db t.raw = some f →
      autenticarFuncionario db t = { funcionario := some f, fuzzyComparisons := 0 }) ∧
    (∀ (db : Banco) (t : Template),
      buscarFuncionarioPorDigitalExata db t.raw = none →
      (autenticarFuncionario db t).funcionario =
        (buscarTodosFuncionariosAtivos db).find? (fuzzyMatches t)) := by
  constructor
  · intro db t f h
    simp [autenticarFuncionario, h]
  · intro db t h
    have hall : ∀ f ∈ buscarTodosFuncionariosAtivos db,
        f.digital.map Digital.dados ≠ some t.raw := by
      intro f hf
      have hmem := List.mem_filter.mp hf
      have hne := List.find?_eq_none.mp h f hmem.1
      intro hcontra
      apply hne
      simp [hcontra, hmem.2]
    simp [autenticarFuncionario, h, verificarDigitalComTodos_eq_find t _ hall]

/-- Witness for the C7 theorem: an exact hit resolves with zero fuzzy
comparisons, and an exact miss resolves through the ordered fuzzy scan. -/
theorem autenticarFuncionario_search_witness :
    autenticarFuncionario [funcionarioExemplo] templateExemplo =
        { funcionario := some funcionarioExemplo, fuzzyComparisons := 0 } ∧
      (autenticarFuncionario [funcionarioExemplo]
          { format := "PNG", raw := [200, 200, 200] }).funcionario =
        (buscarTodosFuncionariosAtivos [funcionarioExemplo]).find?
          (fuzzyMatches { format := "PNG", raw := [200, 200, 200] }) :=
  ⟨autenticarFuncionario_search.1 _ _ funcionarioExemplo rfl,
    autenticarFuncionario_search.2 [funcionarioExemplo] _ rfl⟩

end AllenBreak
